import Mathlib

/-!
Shallow embedding of the hardened webhook receiver in `src/app.py`
(Flask service, routes `/`, `/health`, `POST /webhook/bitgo`).

Bytes are modelled as `List Nat` (each entry meant to be `< 256`),
Python `str` as Lean `String`.  `hashlib.sha256` and `hmac.new` are
embedded as executable functions below; `str.lower`, `str.strip`,
`in`-containment and `hmac.compare_digest` are modelled over ASCII
(the claims never touch the extra Unicode case/space folding of
CPython).
-/

abbrev Bytes := List Nat

/-- Reduce a natural number modulo `2^32` (Python/C 32-bit word arithmetic). -/
def w32 (x : Nat) : Nat := x % 4294967296

/-- Addition modulo `2^32`. -/
def wadd (a b : Nat) : Nat := w32 (a + b)

/-- Rotate a 32-bit word right by `n` bits. -/
def rotr32 (n y : Nat) : Nat := w32 ((y >>> n) ||| (y <<< (32 - n)))

/-- SHA-256 round constants (FIPS 180-4). -/
def shaK : List Nat :=
  [1116352408, 1899447441, 3049323471, 3921009573, 961987163, 1508970993,
   2453635748, 2870763221, 3624381080, 310598401, 607225278, 1426881987,
   1925078388, 2162078206, 2614888103, 3248222580, 3835390401, 4022224774,
   264347078, 604807628, 770255983, 1249150122, 1555081692, 1996064986,
   2554220882, 2821834349, 2952996808, 3210313671, 3336571891, 3584528711,
   113926993, 338241895, 666307205, 773529912, 1294757372, 1396182291,
   1695183700, 1986661051, 2177026350, 2456956037, 2730485921, 2820302411,
   3259730800, 3345764771, 3516065817, 3600352804, 4094571909, 275423344,
   430227734, 506948616, 659060556, 883997877, 958139571, 1322822218,
   1537002063, 1747873779, 1955562222, 2024104815, 2227730452, 2361852424,
   2428436474, 2756734187, 3204031479, 3329325298]

/-- SHA-256 initial hash value. -/
def shaH0 : List Nat :=
  [1779033703, 3144134277, 1013904242, 2773480762, 1359893119,
   2600822924, 528734635, 1541459225]

/-- Group a byte list into big-endian 32-bit words (4 bytes per word). -/
def toWordsBE : Bytes → List Nat
  | b0 :: b1 :: b2 :: b3 :: rest => (((b0 * 256 + b1) * 256 + b2) * 256 + b3) :: toWordsBE rest
  | _ => []

/-- Big-endian byte decomposition of a 32-bit word. -/
def wordToBytesBE (w : Nat) : Bytes :=
  [w / 16777216 % 256, w / 65536 % 256, w / 256 % 256, w % 256]

/-- One extension step of the SHA-256 message schedule: append word `i = W.length`. -/
def scheduleStep (W : List Nat) : List Nat :=
  let i := W.length
  let w15 := W.getD (i - 15) 0
  let w2 := W.getD (i - 2) 0
  let s0 := (rotr32 7 w15) ^^^ (rotr32 18 w15) ^^^ (w15 >>> 3)
  let s1 := (rotr32 17 w2) ^^^ (rotr32 19 w2) ^^^ (w2 >>> 10)
  W ++ [w32 (W.getD (i - 16) 0 + s0 + W.getD (i - 7) 0 + s1)]

/-- Iterate a function `n` times. -/
def iterateFn (f : α → α) : Nat → α → α
  | 0, a => a
  | n + 1, a => iterateFn f n (f a)

/-- Extend 16 message words to the full 64-word SHA-256 schedule. -/
def buildSchedule (ws : List Nat) : List Nat := iterateFn scheduleStep 48 ws

/-- One SHA-256 compression round on the 8-word working state. -/
def shaRound (st : List Nat) (kw : Nat × Nat) : List Nat :=
  match st with
  | [wa, wb, wc, wd, we, wf, wg, wh] =>
    let bigS1 := (rotr32 6 we) ^^^ (rotr32 11 we) ^^^ (rotr32 25 we)
    let chEFG := (we &&& wf) ^^^ ((we ^^^ 4294967295) &&& wg)
    let temp1 := w32 (wh + bigS1 + chEFG + kw.1 + kw.2)
    let bigS0 := (rotr32 2 wa) ^^^ (rotr32 13 wa) ^^^ (rotr32 22 wa)
    let majABC := (wa &&& wb) ^^^ (wa &&& wc) ^^^ (wb &&& wc)
    let temp2 := w32 (bigS0 + majABC)
    [wadd temp1 temp2, wa, wb, wc, wadd wd temp1, we, wf, wg]
  | _ => st

/-- Compress one 64-byte block into the running hash value. -/
def shaCompress (hs : List Nat) (block : Bytes) : List Nat :=
  let W := buildSchedule (toWordsBE block)
  let final := (shaK.zip W).foldl shaRound hs
  List.zipWith wadd hs final

/-- SHA-256 padding: append `0x80`, zeros, and the 64-bit big-endian bit length. -/
def shaPad (msg : Bytes) : Bytes :=
  let L := msg.length
  let zeros := (119 - L % 64) % 64
  let bitLen := 8 * L
  msg ++ [128] ++ List.replicate zeros 0 ++
    [bitLen >>> 56 &&& 255, bitLen >>> 48 &&& 255, bitLen >>> 40 &&& 255, bitLen >>> 32 &&& 255,
     bitLen >>> 24 &&& 255, bitLen >>> 16 &&& 255, bitLen >>> 8 &&& 255, bitLen &&& 255]

/-- Split a byte list into 64-byte chunks (fuelled to stay structural). -/
def chunks64Aux : Nat → Bytes → List Bytes
  | 0, _ => []
  | _, [] => []
  | fuel + 1, l => l.take 64 :: chunks64Aux fuel (l.drop 64)

/-- Split a padded message into its 64-byte blocks. -/
def chunks64 (l : Bytes) : List Bytes := chunks64Aux l.length l

/-- SHA-256 of a byte string, as 32 bytes (embedding of `hashlib.sha256(...).digest()`). -/
def sha256 (msg : Bytes) : Bytes :=
  ((chunks64 (shaPad msg)).foldl shaCompress shaH0).flatMap wordToBytesBE

/-- HMAC-SHA256 (embedding of `hmac.new(key, msg, hashlib.sha256).digest()`,
block size 64). -/
def hmac_sha256 (key msg : Bytes) : Bytes :=
  let k1 := if key.length > 64 then sha256 key else key
  let k2 := k1 ++ List.replicate (64 - k1.length) 0
  let ipad := k2.map (fun b => b ^^^ 0x36)
  let opad := k2.map (fun b => b ^^^ 0x5c)
  sha256 (opad ++ sha256 (ipad ++ msg))

/-- Lowercase hexadecimal digits. -/
def hexDigits : List Char := "0123456789abcdef".data

/-- The hex digit for a nibble. -/
def hexChar (n : Nat) : Char := hexDigits.getD (n % 16) '0'

/-- Lowercase hex encoding of a byte string (embedding of `.hexdigest()`). -/
def hexOfBytes (bs : Bytes) : String :=
  ⟨bs.flatMap (fun b => [hexChar (b / 16), hexChar b])⟩

/-! ## Python string primitives (ASCII model) -/

/-- Whitespace characters stripped by Python `str.strip()` (ASCII portion;
the claims never involve the further Unicode space characters). -/
def isPyWs (c : Char) : Bool :=
  c = ' ' || c = '\t' || c = '\n' || c = '\r' || c.toNat = 11 || c.toNat = 12

/-- Embedding of Python `str.strip()`: drop whitespace from both ends. -/
def pyStrip (s : String) : String :=
  ⟨((s.data.dropWhile isPyWs).reverse.dropWhile isPyWs).reverse⟩

/-- ASCII lowering of one character (model of `str.lower` on the
characters the claims involve). -/
def lowerChar (c : Char) : Char :=
  if 65 ≤ c.toNat && c.toNat ≤ 90 then Char.ofNat (c.toNat + 32) else c

/-- Embedding of Python `str.lower()`. -/
def pyLower (s : String) : String := ⟨s.data.map lowerChar⟩

/-- Substring scan: does `needle` occur contiguously in `hay`. -/
def containsAux (needle : List Char) : List Char → Bool
  | [] => needle.isEmpty
  | c :: rest => needle.isPrefixOf (c :: rest) || containsAux needle rest

/-- Embedding of Python `needle in hay` on strings: substring containment. -/
def strContains (hay needle : String) : Bool := containsAux needle.data hay.data

/-- Character is plain ASCII. -/
def isAsciiChar (c : Char) : Bool := c.toNat < 128

/-- Embedding of `hmac.compare_digest` on `str` arguments: CPython requires
both strings to be ASCII-only and raises `TypeError` otherwise (modelled as
`none`); on ASCII inputs it returns whether the strings are equal. -/
def compare_digest (a b : String) : Option Bool :=
  if a.data.all isAsciiChar && b.data.all isAsciiChar then some (a = b) else none

/-- UTF-8 encoding of one character (RFC 3629). -/
def utf8EncodeChar (c : Char) : Bytes :=
  let n := c.toNat
  if n < 128 then [n]
  else if n < 2048 then [192 ||| (n >>> 6), 128 ||| (n &&& 63)]
  else if n < 65536 then [224 ||| (n >>> 12), 128 ||| ((n >>> 6) &&& 63), 128 ||| (n &&& 63)]
  else [240 ||| (n >>> 18), 128 ||| ((n >>> 12) &&& 63), 128 ||| ((n >>> 6) &&& 63), 128 ||| (n &&& 63)]

/-- Embedding of Python `str.encode()` (UTF-8). -/
def utf8Encode (s : String) : Bytes := s.data.flatMap utf8EncodeChar

/-- Continuation byte test for UTF-8 decoding. -/
def isCont (b : Nat) : Bool := 128 ≤ b && b < 192

/-- Strict UTF-8 decoding (embedding of `bytes.decode("utf-8")`): rejects
overlong forms, surrogates and out-of-range sequences, as CPython does.
Fuelled to stay structurally recursive. -/
def utf8DecodeAux : Nat → Bytes → Option (List Char)
  | _, [] => some []
  | 0, _ => none
  | fuel + 1, b :: rest =>
    if b < 128 then
      (utf8DecodeAux fuel rest).map (fun cs => Char.ofNat b :: cs)
    else if 194 ≤ b && b ≤ 223 then
      match rest with
      | b1 :: r2 =>
        if isCont b1 then
          (utf8DecodeAux fuel r2).map (fun cs => Char.ofNat ((b - 192) * 64 + (b1 - 128)) :: cs)
        else none
      | _ => none
    else if 224 ≤ b && b ≤ 239 then
      match rest with
      | b1 :: b2 :: r2 =>
        let lo1 := if b = 224 then 160 else 128
        let hi1 := if b = 237 then 159 else 191
        if (lo1 ≤ b1 && b1 ≤ hi1) && isCont b2 then
          (utf8DecodeAux fuel r2).map
            (fun cs => Char.ofNat ((b - 224) * 4096 + (b1 - 128) * 64 + (b2 - 128)) :: cs)
        else none
      | _ => none
    else if 240 ≤ b && b ≤ 244 then
      match rest with
      | b1 :: b2 :: b3 :: r2 =>
        let lo1 := if b = 240 then 144 else 128
        let hi1 := if b = 244 then 143 else 191
        if (lo1 ≤ b1 && b1 ≤ hi1) && isCont b2 && isCont b3 then
          (utf8DecodeAux fuel r2).map
            (fun cs =>
              Char.ofNat ((b - 240) * 262144 + (b1 - 128) * 4096 + (b2 - 128) * 64 + (b3 - 128)) :: cs)
        else none
      | _ => none
    else none

/-- Embedding of `raw_body.decode("utf-8")`: `none` models a raised
`UnicodeDecodeError`. -/
def utf8Decode (bs : Bytes) : Option String :=
  match utf8DecodeAux (bs.length + 1) bs with
  | some cs => some ⟨cs⟩
  | none => none

/-! ## The signature verifier (`verify_hmac_sha256`, src/app.py lines 22-35) -/

/-- Embedding of the normalisation on line 32-33: when the received
signature contains `=`, keep only what follows the first `=`
(`received_sig.split("=", 1)[1]`). -/
def stripAlgoTag (s : String) : String :=
  if '=' ∈ s.data then ⟨(s.data.dropWhile (fun c => c ≠ '=')).drop 1⟩ else s

/-- Embedding of `verify_hmac_sha256` (src/app.py lines 22-35), with the
module-level `HMAC_SECRET` passed explicitly.  Result `none` models an
exception escaping the function (the `TypeError` that
`hmac.compare_digest` raises on non-ASCII strings). -/
def verify_hmac_sha256 (secret : String) (raw_body : Bytes) (received_sig : String) : Option Bool :=
  if secret = "" then some true
  else if received_sig = "" then some false
  else
    let sig2 := stripAlgoTag received_sig
    let computed := hexOfBytes (hmac_sha256 (utf8Encode secret) raw_body)
    compare_digest (pyLower computed) (pyLower (pyStrip sig2))

/-- Embedding of the startup configuration on line 20:
`HMAC_SECRET = os.environ.get("WEBHOOK_HMAC_SECRET", "").strip()`. -/
def hmacSecretFromEnv (v : Option String) : String := pyStrip (v.getD "")

/-- Default of `MAX_CONTENT_LENGTH` on line 13: `1024 * 1024`. -/
def defaultMaxContentLength : Nat := 1024 * 1024

/-! ## JSON values and `json.loads` (embedding of the stdlib decoder) -/

/-- Python values produced by `json.loads`.  Numbers keep their source
lexeme (the handler never computes with them; only truthiness matters,
which is derivable from the lexeme). -/
inductive PyValue where
  | pynone : PyValue
  | pybool : Bool → PyValue
  | pynum : String → PyValue
  | pystr : String → PyValue
  | pylist : List PyValue → PyValue
  | pydict : List (String × PyValue) → PyValue

/-- Opening brace character. -/
def lbrace : Char := Char.ofNat 123

/-- Closing brace character. -/
def rbrace : Char := Char.ofNat 125

/-- JSON whitespace accepted by the Python decoder: space, tab, LF, CR. -/
def isJsonWs (c : Char) : Bool := c = ' ' || c = '\t' || c = '\n' || c = '\r'

/-- Skip JSON whitespace. -/
def skipWs (l : List Char) : List Char := l.dropWhile isJsonWs

/-- Decimal digit test. -/
def isDigitCh (c : Char) : Bool := c.toNat ≥ 48 && c.toNat ≤ 57

/-- Parse the JSON number grammar `-?(0|[1-9][0-9]*)(\.[0-9]+)?([eE][+-]?[0-9]+)?`
at the head of the input, returning the lexeme. -/
def jsonNumber (l : List Char) : Option (PyValue × List Char) :=
  let (sign, l1) := match l with
    | '-' :: r => ([ '-' ], r)
    | _ => ([], l)
  match l1 with
  | [] => none
  | c :: r =>
    if c = '0' ∨ ('1' ≤ c && c ≤ '9') then
      let ds := if c = '0' then [] else r.takeWhile isDigitCh
      let intPart := c :: ds
      let r2 := if c = '0' then r else r.dropWhile isDigitCh
      let (fracPart, r3) := match r2 with
        | '.' :: r2a =>
          let fs := r2a.takeWhile isDigitCh
          if fs.isEmpty then ([], r2) else ('.' :: fs, r2a.dropWhile isDigitCh)
        | _ => ([], r2)
      let (expPart, r4) := match r3 with
        | e :: r3a =>
          if e = 'e' || e = 'E' then
            let (es, r3b) := match r3a with
              | s :: r3c => if s = '+' || s = '-' then ([s], r3c) else ([], r3a)
              | _ => ([], r3a)
            let xs := r3b.takeWhile isDigitCh
            if xs.isEmpty then ([], r3) else (e :: (es ++ xs), r3b.dropWhile isDigitCh)
          else ([], r3)
        | _ => ([], r3)
      some (.pynum ⟨sign ++ intPart ++ fracPart ++ expPart⟩, r4)
    else none

/-- Hex digit value for `\uXXXX` escapes. -/
def hexVal (c : Char) : Option Nat :=
  let n := c.toNat
  if n ≥ 48 && n ≤ 57 then some (n - 48)
  else if n ≥ 97 && n ≤ 102 then some (n - 87)
  else if n ≥ 65 && n ≤ 70 then some (n - 55)
  else none

mutual

/-- Parse a JSON string body after the opening quote (strict mode:
escape sequences per RFC 8259, raw control characters rejected;
surrogate-pair recombination is not modelled — no claim involves it). -/
def jsonString : Nat → List Char → Option (List Char × List Char)
  | 0, _ => none
  | fuel + 1, l =>
    match l with
    | [] => none
    | c :: rest =>
      if c = '"' then some ([], rest)
      else if c = '\\' then
        match rest with
        | [] => none
        | e :: r2 =>
          if e = '"' || e = '\\' || e = '/' then
            (jsonString fuel r2).map (fun p => (e :: p.1, p.2))
          else if e = 'b' then (jsonString fuel r2).map (fun p => (Char.ofNat 8 :: p.1, p.2))
          else if e = 'f' then (jsonString fuel r2).map (fun p => (Char.ofNat 12 :: p.1, p.2))
          else if e = 'n' then (jsonString fuel r2).map (fun p => ('\n' :: p.1, p.2))
          else if e = 'r' then (jsonString fuel r2).map (fun p => ('\r' :: p.1, p.2))
          else if e = 't' then (jsonString fuel r2).map (fun p => ('\t' :: p.1, p.2))
          else if e = 'u' then
            match r2 with
            | h1 :: h2 :: h3 :: h4 :: r3 =>
              match hexVal h1, hexVal h2, hexVal h3, hexVal h4 with
              | some v1, some v2, some v3, some v4 =>
                (jsonString fuel r3).map
                  (fun p => (Char.ofNat (v1 * 4096 + v2 * 256 + v3 * 16 + v4) :: p.1, p.2))
              | _, _, _, _ => none
            | _ => none
          else none
      else if c.toNat < 32 then none
      else (jsonString fuel rest).map (fun p => (c :: p.1, p.2))

/-- Parse one JSON value at the head of the input (whitespace already
skipped by the caller), mirroring the dispatch of the Python scanner,
including the non-standard `NaN`, `Infinity`, `-Infinity` constants. -/
def jsonValue : Nat → List Char → Option (PyValue × List Char)
  | 0, _ => none
  | fuel + 1, l =>
    match l with
    | [] => none
    | c :: rest =>
      if c = '"' then (jsonString fuel rest).map (fun p => (.pystr ⟨p.1⟩, p.2))
      else if c = lbrace then jsonObjectBody fuel (skipWs rest)
      else if c = '[' then jsonArrayBody fuel (skipWs rest)
      else if "null".data.isPrefixOf l then some (.pynone, l.drop 4)
      else if "true".data.isPrefixOf l then some (.pybool true, l.drop 4)
      else if "false".data.isPrefixOf l then some (.pybool false, l.drop 5)
      else if "NaN".data.isPrefixOf l then some (.pynum "NaN", l.drop 3)
      else if "Infinity".data.isPrefixOf l then some (.pynum "Infinity", l.drop 8)
      else if "-Infinity".data.isPrefixOf l then some (.pynum "-Infinity", l.drop 9)
      else jsonNumber l

/-- Parse an object body after `{` and leading whitespace: either an
immediate `}` or a member list. -/
def jsonObjectBody : Nat → List Char → Option (PyValue × List Char)
  | 0, _ => none
  | fuel + 1, l =>
    match l with
    | [] => none
    | c :: rest =>
      if c = rbrace then some (.pydict [], rest)
      else jsonMembers fuel [] (c :: rest)

/-- Parse the members of an object: `"key" : value (, "key" : value)* }`. -/
def jsonMembers : Nat → List (String × PyValue) → List Char → Option (PyValue × List Char)
  | 0, _, _ => none
  | fuel + 1, acc, l =>
    match l with
    | c :: rest =>
      if c = '"' then
        match jsonString fuel rest with
        | some (key, r1) =>
          match skipWs r1 with
          | ':' :: r2 =>
            match jsonValue fuel (skipWs r2) with
            | some (v, r3) =>
              let acc2 := acc ++ [(⟨key⟩, v)]
              match skipWs r3 with
              | ',' :: r4 => jsonMembers fuel acc2 (skipWs r4)
              | d :: r4 => if d = rbrace then some (.pydict acc2, r4) else none
              | [] => none
            | none => none
          | _ => none
        | none => none
      else none
    | [] => none

/-- Parse an array body after `[` and leading whitespace: either an
immediate `]` or an element list. -/
def jsonArrayBody : Nat → List Char → Option (PyValue × List Char)
  | 0, _ => none
  | fuel + 1, l =>
    match l with
    | [] => none
    | c :: rest =>
      if c = ']' then some (.pylist [], rest)
      else jsonElems fuel [] (c :: rest)

/-- Parse the elements of an array: `value (, value)* ]`. -/
def jsonElems : Nat → List PyValue → List Char → Option (PyValue × List Char)
  | 0, _, _ => none
  | fuel + 1, acc, l =>
    match jsonValue fuel l with
    | some (v, r1) =>
      let acc2 := acc ++ [v]
      match skipWs r1 with
      | ',' :: r2 => jsonElems fuel acc2 (skipWs r2)
      | ']' :: r2 => some (.pylist acc2, r2)
      | _ => none
    | none => none

end

/-- Embedding of `json.loads`: skip leading whitespace, parse one value,
require only whitespace to remain.  `none` models a raised
`json.JSONDecodeError`. -/
def json_loads (s : String) : Option PyValue :=
  match jsonValue (4 * s.length + 16) (skipWs s.data) with
  | some (v, rest) => if (skipWs rest).isEmpty then some v else none
  | none => none

/-! ## Python dict/truthiness helpers -/

/-- Embedding of `dict.get` on a JSON-decoded object: the Python decoder
builds the dict with later duplicate keys overriding earlier ones, so
lookup returns the value of the last pair with the key. -/
def pyDictGet (l : List (String × PyValue)) (k : String) : Option PyValue :=
  (l.reverse.find? (fun p => p.1 = k)).map (fun p => p.2)

/-- Whether a number lexeme denotes zero (all mantissa digits are `0`;
`NaN` and the infinities are nonzero). -/
def numIsZero (s : String) : Bool :=
  if s = "NaN" || s = "Infinity" || s = "-Infinity" then false
  else (s.data.takeWhile (fun c => c ≠ 'e' && c ≠ 'E')).all
    (fun c => c = '0' || c = '-' || c = '.')

/-- Python truthiness of a JSON-decoded value. -/
def pyTruthy : PyValue → Bool
  | .pynone => false
  | .pybool b => b
  | .pynum s => !numIsZero s
  | .pystr s => s ≠ ""
  | .pylist l => !l.isEmpty
  | .pydict l => !l.isEmpty

/-- Embedding of a Python `==` comparison between an optional decoded
value (`dict.get` result, possibly `None`) and a string literal. -/
def eqStrVal (v : Option PyValue) (s : String) : Bool :=
  match v with
  | some (.pystr t) => t = s
  | _ => false

/-! ## The webhook endpoint (`bitgo_webhook`, src/app.py lines 48-99) -/

/-- Process-wide configuration, loaded once at startup (src/app.py
lines 13 and 20). -/
structure Config where
  maxContentLength : Nat
  hmacSecret : String

/-- An incoming `POST /webhook/bitgo` request, reduced to what the
handler consumes.  Header lookup in Flask is case-insensitive, so each
header the code reads is one optional field (`none` = header absent). -/
structure Request where
  contentType : Option String
  contentLength : Option Nat
  xSignatureSha256 : Option String
  xHubSignature256 : Option String
  body : Bytes

/-- Outcome of running the handler: an HTTP response built by the
handler itself, or an exception escaping it (which Flask turns into a
generic 500). -/
inductive HandlerResult where
  | response : Nat → List (String × PyValue) → HandlerResult
  | uncaughtError : HandlerResult

/-- Embedding of line 63: `request.headers.get("X-Signature-SHA256") or
request.headers.get("X-Hub-Signature-256", "")` — Python `or` falls
through on a missing or empty first header. -/
def requestSig (r : Request) : String :=
  match r.xSignatureSha256 with
  | some s => if s ≠ "" then s else (r.xHubSignature256.getD "")
  | none => r.xHubSignature256.getD ""

/-- Embedding of the size-guard condition on line 56:
`request.content_length and request.content_length > app.config["MAX_CONTENT_LENGTH"]`
(`content_length` is `None` or `0` ⇒ falsy ⇒ guard not taken). -/
def sizeExceeded (cfg : Config) (r : Request) : Bool :=
  match r.contentLength with
  | some n => n ≠ 0 && n > cfg.maxContentLength
  | none => false

/-- The content-type condition of line 52: `"application/json" not in ctype.lower()`
holds exactly when this is `false`. -/
def contentTypeOk (r : Request) : Bool :=
  strContains (pyLower (r.contentType.getD "")) "application/json"

/-- The event-classification step, lines 79-96.  In the
transfer/confirmed branch the code runs `value.get("amount")` on
`value = data.get("value", {}) or {}`; when that value is truthy but not
a dict, `.get` raises `AttributeError` (modelled as `uncaughtError`).
Every non-raising path falls through to line 99. -/
def classifyAndRespond (m : List (String × PyValue)) : HandlerResult :=
  let wtype := pyDictGet m "type"
  let state := pyDictGet m "state"
  if eqStrVal wtype "transfer" && eqStrVal state "confirmed" then
    let v0 := (pyDictGet m "value").getD (.pydict [])
    let value := if pyTruthy v0 then v0 else .pydict []
    match value with
    | .pydict _ => .response 200 [("status", .pystr "OK")]
    | _ => .uncaughtError
  else
    .response 200 [("status", .pystr "OK")]

/-- Embedding of the `bitgo_webhook` handler (src/app.py lines 48-99). -/
def bitgo_webhook (cfg : Config) (r : Request) : HandlerResult :=
  if contentTypeOk r = false then
    .response 415 [("error", .pystr "Unsupported media type; send application/json")]
  else if sizeExceeded cfg r then
    .response 413 [("error", .pystr "Payload too large")]
  else
    let raw_body := r.body
    let sig := requestSig r
    match verify_hmac_sha256 cfg.hmacSecret raw_body sig with
    | none => .uncaughtError
    | some false => .response 401 [("error", .pystr "Invalid signature")]
    | some true =>
      match utf8Decode raw_body with
      | none => .uncaughtError
      | some txt =>
        match json_loads (if txt = "" then "\x7b\x7d" else txt) with
        | none => .response 400 [("error", .pystr "Invalid JSON format")]
        | some data =>
          match data with
          | .pydict m => classifyAndRespond m
          | _ => .response 400 [("error", .pystr "JSON object required")]

/-- Whether a decoded JSON value is a Python dict (`isinstance(data, dict)`,
line 75). -/
def isDict : PyValue → Bool
  | .pydict _ => true
  | _ => false

/-! ## Helper lemmas about the hex digest -/

lemma hexChar_mem (n : Nat) : hexChar n ∈ hexDigits := by
  have h : n % 16 < 16 := Nat.mod_lt _ (by norm_num)
  unfold hexChar
  set k := n % 16 with hk
  interval_cases k <;> decide

lemma hexOfBytes_mem {c : Char} {bs : Bytes} (h : c ∈ (hexOfBytes bs).data) : c ∈ hexDigits := by
  simp only [hexOfBytes, List.mem_flatMap] at h
  obtain ⟨b, _, hc⟩ := h
  simp only [List.mem_cons, List.not_mem_nil, or_false] at hc
  rcases hc with h1 | h1 <;> (subst h1; exact hexChar_mem _)

lemma hex_char_props {c : Char} (hc : c ∈ hexDigits) :
    lowerChar c = c ∧ isPyWs c = false ∧ c ≠ '=' ∧ isAsciiChar c = true := by
  fin_cases hc <;> decide

lemma map_lowerChar_of_hex {l : List Char} (h : ∀ c ∈ l, c ∈ hexDigits) :
    l.map lowerChar = l := by
  induction l with
  | nil => rfl
  | cons c0 lt ihm =>
    have hc := (hex_char_props (h c0 (List.mem_cons_self c0 lt))).1
    simp only [List.map_cons, hc, ihm (fun d hd => h d (List.mem_cons_of_mem c0 hd))]

lemma pyLower_hex (bs : Bytes) : pyLower (hexOfBytes bs) = hexOfBytes bs := by
  unfold pyLower
  have h : (hexOfBytes bs).data.map lowerChar = (hexOfBytes bs).data :=
    map_lowerChar_of_hex (fun c hc => hexOfBytes_mem hc)
  rw [h]

lemma dropWhile_ws_eq_self {l : List Char} (h : ∀ c ∈ l, isPyWs c = false) :
    l.dropWhile isPyWs = l := by
  cases l with
  | nil => rfl
  | cons c l2 =>
    have hc := h c (List.mem_cons_self c l2)
    simp [List.dropWhile_cons, hc]

lemma pyStrip_of_nonWs {l : List Char} (h : ∀ c ∈ l, isPyWs c = false) :
    pyStrip ⟨l⟩ = ⟨l⟩ := by
  unfold pyStrip
  have h1 : l.dropWhile isPyWs = l := dropWhile_ws_eq_self h
  have h2 : l.reverse.dropWhile isPyWs = l.reverse :=
    dropWhile_ws_eq_self (fun c hc => h c (List.mem_reverse.mp hc))
  rw [h1, h2, List.reverse_reverse]

lemma pyStrip_hex (bs : Bytes) : pyStrip (hexOfBytes bs) = hexOfBytes bs :=
  pyStrip_of_nonWs (fun _ hc => (hex_char_props (hexOfBytes_mem hc)).2.1)

lemma stripAlgoTag_hex (bs : Bytes) : stripAlgoTag (hexOfBytes bs) = hexOfBytes bs := by
  unfold stripAlgoTag
  have h : '=' ∉ (hexOfBytes bs).data := by
    intro hmem
    exact (hex_char_props (hexOfBytes_mem hmem)).2.2.1 rfl
  simp [h]

lemma hex_all_ascii (bs : Bytes) : (hexOfBytes bs).data.all isAsciiChar = true := by
  rw [List.all_eq_true]
  intro c hc
  exact (hex_char_props (hexOfBytes_mem hc)).2.2.2

lemma compare_digest_hex_self (bs : Bytes) :
    compare_digest (hexOfBytes bs) (hexOfBytes bs) = some true := by
  unfold compare_digest
  simp [hex_all_ascii]

/-! ## Length of the digest -/

lemma shaRound_length (st : List Nat) (kw : Nat × Nat) : (shaRound st kw).length = st.length := by
  unfold shaRound
  split
  · simp_all
  · rfl

lemma foldl_shaRound_length (l : List (Nat × Nat)) (st : List Nat) :
    (l.foldl shaRound st).length = st.length := by
  induction l generalizing st with
  | nil => rfl
  | cons p ps ihr => rw [List.foldl_cons, ihr, shaRound_length]

lemma shaCompress_length (hs : List Nat) (b : Bytes) :
    (shaCompress hs b).length = hs.length := by
  unfold shaCompress
  rw [List.length_zipWith, foldl_shaRound_length, Nat.min_self]

lemma foldl_shaCompress_length (l : List Bytes) (hs : List Nat) :
    (l.foldl shaCompress hs).length = hs.length := by
  induction l generalizing hs with
  | nil => rfl
  | cons blk blks ihc => rw [List.foldl_cons, ihc, shaCompress_length]

lemma flatMap_wordToBytes_length (l : List Nat) :
    (l.flatMap wordToBytesBE).length = 4 * l.length := by
  induction l with
  | nil => rfl
  | cons w ws ihw =>
    simp only [List.flatMap_cons, List.length_append, ihw, wordToBytesBE, List.length_cons,
      List.length_nil]
    omega

lemma sha256_length (m : Bytes) : (sha256 m).length = 32 := by
  unfold sha256
  rw [flatMap_wordToBytes_length, foldl_shaCompress_length]
  rfl

lemma hexOfBytes_length (bs : Bytes) : (hexOfBytes bs).data.length = 2 * bs.length := by
  unfold hexOfBytes
  induction bs with
  | nil => rfl
  | cons byt tl ihx =>
    simp only [List.flatMap_cons, List.length_append, List.length_cons, List.length_nil] at *
    omega

lemma hmac_hex_ne_empty (key body : Bytes) : hexOfBytes (hmac_sha256 key body) ≠ "" := by
  intro h
  have h2 : (hexOfBytes (hmac_sha256 key body)).data.length = 0 := by rw [h]; rfl
  rw [hexOfBytes_length] at h2
  unfold hmac_sha256 at h2
  rw [sha256_length] at h2
  omega

/-- If the secret is non-empty, the correct hex digest always verifies. -/
lemma verify_correct (secret : String) (body : Bytes) (hs : secret ≠ "") :
    verify_hmac_sha256 secret body (hexOfBytes (hmac_sha256 (utf8Encode secret) body)) =
      some true := by
  unfold verify_hmac_sha256
  rw [if_neg hs, if_neg (hmac_hex_ne_empty _ _)]
  simp only [stripAlgoTag_hex, pyStrip_hex, pyLower_hex]
  exact compare_digest_hex_self _

lemma pyLower_data_length (s : String) : (pyLower s).data.length = s.data.length := by
  simp [pyLower]

lemma pyStrip_append_space {l : List Char} (h : ∀ c ∈ l, isPyWs c = false) :
    pyStrip ⟨l ++ [' ']⟩ = ⟨l⟩ := by
  unfold pyStrip
  cases l with
  | nil => rfl
  | cons c l2 =>
    have hc : isPyWs c = false := h c (List.mem_cons_self c l2)
    have h1 : (c :: l2 ++ [' ']).dropWhile isPyWs = c :: l2 ++ [' '] := by
      rw [List.cons_append, List.dropWhile_cons, hc]
      simp
    rw [h1]
    have h2 : (c :: l2 ++ [' ']).reverse = ' ' :: (c :: l2).reverse := by
      rw [show c :: l2 ++ [' '] = (c :: l2) ++ [' '] from rfl, List.reverse_append]
      rfl
    rw [h2, List.dropWhile_cons]
    have h3 : isPyWs ' ' = true := by decide
    rw [h3]
    simp only [if_true]
    rw [dropWhile_ws_eq_self (fun d hd => h d (List.mem_reverse.mp hd)), List.reverse_reverse]

lemma pyStrip_all_ws {l : List Char} (h : ∀ c ∈ l, isPyWs c = true) : pyStrip ⟨l⟩ = "" := by
  unfold pyStrip
  have h1 : l.dropWhile isPyWs = [] := List.dropWhile_eq_nil_iff.mpr h
  rw [h1]
  rfl

lemma compare_digest_eq_true_iff {a b : String} (ha : a.data.all isAsciiChar = true) :
    compare_digest a b = some true ↔ b = a := by
  unfold compare_digest
  by_cases hb : b.data.all isAsciiChar = true
  · rw [ha, hb]
    simp only [Bool.and_self, if_true, Option.some.injEq, decide_eq_true_eq]
    exact eq_comm
  · rw [ha]
    simp only [Bool.true_and]
    rw [if_neg hb]
    constructor
    · intro h
      exact absurd h (by simp)
    · intro h
      subst h
      exact absurd ha hb

lemma stripAlgoTag_hex_space (bs : Bytes) :
    stripAlgoTag ⟨(hexOfBytes bs).data ++ [' ']⟩ = ⟨(hexOfBytes bs).data ++ [' ']⟩ := by
  unfold stripAlgoTag
  have h : '=' ∉ (hexOfBytes bs).data ++ [' '] := by
    intro hmem
    rcases List.mem_append.mp hmem with h1 | h1
    · exact (hex_char_props (hexOfBytes_mem h1)).2.2.1 rfl
    · simp at h1
  simp [h]

lemma pyStrip_hex_space (bs : Bytes) :
    pyStrip ⟨(hexOfBytes bs).data ++ [' ']⟩ = hexOfBytes bs := by
  have h := pyStrip_append_space (l := (hexOfBytes bs).data)
    (fun c hc => (hex_char_props (hexOfBytes_mem hc)).2.1)
  rw [h]

lemma hmac_sha256_length (key body : Bytes) : (hmac_sha256 key body).length = 32 := by
  unfold hmac_sha256
  exact sha256_length _

lemma hex_space_ne_empty (bs : Bytes) : (⟨(hexOfBytes bs).data ++ [' ']⟩ : String) ≠ "" := by
  intro h
  have h2 := congrArg (fun s => s.data.length) h
  simp [List.length_append] at h2

/-- If the secret is non-empty, the correct hex digest still verifies
when a trailing space is appended (line 35 strips it). -/
lemma verify_hex_space (secret : String) (body : Bytes) (hs : secret ≠ "") :
    verify_hmac_sha256 secret body
      ⟨(hexOfBytes (hmac_sha256 (utf8Encode secret) body)).data ++ [' ']⟩ = some true := by
  simp only [verify_hmac_sha256]
  rw [if_neg hs, if_neg (hex_space_ne_empty _)]
  rw [stripAlgoTag_hex_space, pyStrip_hex_space, pyLower_hex]
  exact compare_digest_hex_self _

/-! ## Claim theorems -/

/-- Claim C4 (confirmed): with no `WEBHOOK_HMAC_SECRET` configured,
`verify_hmac_sha256` returns `True` for every body and every received
signature string. -/
theorem webhook_c4_no_secret_always_true (b : Bytes) (sig : String) :
    verify_hmac_sha256 (hmacSecretFromEnv none) b sig = some true := rfl

/-- Claim C10 (confirmed): the configured secret is stripped of
surrounding whitespace at startup, so a `WEBHOOK_HMAC_SECRET` value
consisting only of whitespace behaves exactly like no secret:
verification always succeeds. -/
theorem webhook_c10_ws_secret_disabled (v : String) (b : Bytes) (sig : String)
    (h : ∀ c ∈ v.data, isPyWs c = true) :
    verify_hmac_sha256 (hmacSecretFromEnv (some v)) b sig = some true := by
  have h1 : hmacSecretFromEnv (some v) = "" := by
    unfold hmacSecretFromEnv
    exact pyStrip_all_ws h
  rw [h1]
  rfl

/-- Witness for C10 at the concrete whitespace-only value `" "`. -/
theorem webhook_c10_witness :
    verify_hmac_sha256 (hmacSecretFromEnv (some " ")) [1, 2] "junk" = some true :=
  webhook_c10_ws_secret_disabled " " [1, 2] "junk" (by decide)

/-- Claim C1 (amended): for a non-empty secret, verification returns
`True` exactly when the received signature — after stripping an optional
`algo=` prefix and surrounding whitespace — case-insensitively equals
the hex HMAC-SHA256 digest of the body under the secret. -/
theorem webhook_c1_verify_iff (secret : String) (body : Bytes) (sig : String)
    (hs : secret ≠ "") :
    verify_hmac_sha256 secret body sig = some true ↔
      pyLower (pyStrip (stripAlgoTag sig)) =
        pyLower (hexOfBytes (hmac_sha256 (utf8Encode secret) body)) := by
  simp only [verify_hmac_sha256]
  rw [if_neg hs]
  by_cases hsig : sig = ""
  · subst hsig
    rw [if_pos rfl]
    constructor
    · intro h
      simp at h
    · intro h
      have h1 : pyLower (pyStrip (stripAlgoTag "")) = "" := rfl
      rw [h1] at h
      have h2 := congrArg (fun s => s.data.length) h
      simp only [pyLower_data_length] at h2
      rw [hexOfBytes_length, hmac_sha256_length] at h2
      simp at h2
  · rw [if_neg hsig]
    have ha : (pyLower (hexOfBytes (hmac_sha256 (utf8Encode secret) body))).data.all
        isAsciiChar = true := by
      rw [pyLower_hex]
      exact hex_all_ascii _
    exact compare_digest_eq_true_iff ha

/-- Witness for C1 at secret `"k"`, empty body and empty signature:
both sides of the equivalence are false there. -/
theorem webhook_c1_witness :
    verify_hmac_sha256 "k" [] "" = some true ↔
      pyLower (pyStrip (stripAlgoTag "")) =
        pyLower (hexOfBytes (hmac_sha256 (utf8Encode "k") [])) :=
  webhook_c1_verify_iff "k" [] "" (by decide)

/-- Counterexample to C1 as stated: with secret `"k"` and empty body,
the digest followed by one space verifies as `True` (line 35 strips the
space), yet after only prefix-stripping it does not case-insensitively
equal the digest. -/
theorem webhook_c1_counterexample :
    verify_hmac_sha256 "k" []
        ⟨(hexOfBytes (hmac_sha256 (utf8Encode "k") [])).data ++ [' ']⟩ = some true ∧
      pyLower (stripAlgoTag ⟨(hexOfBytes (hmac_sha256 (utf8Encode "k") [])).data ++ [' ']⟩) ≠
        pyLower (hexOfBytes (hmac_sha256 (utf8Encode "k") [])) := by
  constructor
  · exact verify_hex_space "k" [] (by decide)
  · rw [stripAlgoTag_hex_space]
    intro h
    have h2 := congrArg (fun s => s.data.length) h
    simp only [pyLower_data_length] at h2
    simp only [List.length_append, List.length_cons, List.length_nil] at h2
    omega

/-! ## Stage lemmas for the handler -/

lemma bitgo_415 (cfg : Config) (r : Request) (h : contentTypeOk r = false) :
    bitgo_webhook cfg r =
      .response 415 [("error", .pystr "Unsupported media type; send application/json")] := by
  simp only [bitgo_webhook, h]
  simp

lemma bitgo_413 (cfg : Config) (r : Request) (hct : contentTypeOk r = true)
    (hsz : sizeExceeded cfg r = true) :
    bitgo_webhook cfg r = .response 413 [("error", .pystr "Payload too large")] := by
  simp only [bitgo_webhook, hct, hsz]
  simp

lemma bitgo_401 (cfg : Config) (r : Request) (hct : contentTypeOk r = true)
    (hsz : sizeExceeded cfg r = false)
    (hv : verify_hmac_sha256 cfg.hmacSecret r.body (requestSig r) = some false) :
    bitgo_webhook cfg r = .response 401 [("error", .pystr "Invalid signature")] := by
  simp only [bitgo_webhook, hct, hsz, hv]
  simp

lemma bitgo_decode_uncaught (cfg : Config) (r : Request) (hct : contentTypeOk r = true)
    (hsz : sizeExceeded cfg r = false)
    (hv : verify_hmac_sha256 cfg.hmacSecret r.body (requestSig r) = some true)
    (hd : utf8Decode r.body = none) :
    bitgo_webhook cfg r = .uncaughtError := by
  simp only [bitgo_webhook, hct, hsz, hv, hd]
  simp

lemma bitgo_parse_400 (cfg : Config) (r : Request) (hct : contentTypeOk r = true)
    (hsz : sizeExceeded cfg r = false)
    (hv : verify_hmac_sha256 cfg.hmacSecret r.body (requestSig r) = some true)
    (s : String) (hd : utf8Decode r.body = some s) (hs : s ≠ "")
    (hp : json_loads s = none) :
    bitgo_webhook cfg r = .response 400 [("error", .pystr "Invalid JSON format")] := by
  simp only [bitgo_webhook, hct, hsz, hv, hd, hs, hp]
  simp [hp]

lemma bitgo_nonobject_400 (cfg : Config) (r : Request) (hct : contentTypeOk r = true)
    (hsz : sizeExceeded cfg r = false)
    (hv : verify_hmac_sha256 cfg.hmacSecret r.body (requestSig r) = some true)
    (s : String) (v : PyValue) (hd : utf8Decode r.body = some s) (hs : s ≠ "")
    (hp : json_loads s = some v) (hnd : isDict v = false) :
    bitgo_webhook cfg r = .response 400 [("error", .pystr "JSON object required")] := by
  simp only [bitgo_webhook, hct, hsz, hv, hd, hs, hp]
  cases v <;> simp_all [isDict]

lemma bitgo_object (cfg : Config) (r : Request) (hct : contentTypeOk r = true)
    (hsz : sizeExceeded cfg r = false)
    (hv : verify_hmac_sha256 cfg.hmacSecret r.body (requestSig r) = some true)
    (s : String) (m : List (String × PyValue)) (hd : utf8Decode r.body = some s) (hs : s ≠ "")
    (hp : json_loads s = some (.pydict m)) :
    bitgo_webhook cfg r = classifyAndRespond m := by
  simp only [bitgo_webhook, hct, hsz, hv, hd, hs, hp]
  simp [hp]

lemma bitgo_empty_200 (cfg : Config) (r : Request) (hct : contentTypeOk r = true)
    (hsz : sizeExceeded cfg r = false)
    (hv : verify_hmac_sha256 cfg.hmacSecret r.body (requestSig r) = some true)
    (hb : utf8Decode r.body = some "") :
    bitgo_webhook cfg r = .response 200 [("status", .pystr "OK")] := by
  simp only [bitgo_webhook, hct, hsz, hv, hb]
  rfl

/-- Claim C6 (amended): whenever the lowercased `Content-Type` header
(empty when the header is absent) does not contain `application/json`,
the handler responds 415. -/
theorem webhook_c6_content_type_415 (cfg : Config) (r : Request)
    (h : contentTypeOk r = false) :
    bitgo_webhook cfg r =
      .response 415 [("error", .pystr "Unsupported media type; send application/json")] :=
  bitgo_415 cfg r h

/-- Witness for C6: a request with no `Content-Type` header gets 415. -/
theorem webhook_c6_witness :
    bitgo_webhook ⟨1048576, ""⟩ ⟨none, none, none, none, []⟩ =
      .response 415 [("error", .pystr "Unsupported media type; send application/json")] :=
  webhook_c6_content_type_415 ⟨1048576, ""⟩ ⟨none, none, none, none, []⟩ (by decide)

/-- Counterexample to C6 as stated: the header `APPLICATION/JSON` does
not contain the string `application/json`, yet the handler does not
respond 415 (line 52 lowercases the header before the containment
test). -/
theorem webhook_c6_counterexample :
    strContains "APPLICATION/JSON" "application/json" = false ∧
      bitgo_webhook ⟨1048576, ""⟩ ⟨some "APPLICATION/JSON", none, none, none, []⟩ =
        .response 200 [("status", .pystr "OK")] :=
  ⟨rfl, rfl⟩

/-- Claim C7 (confirmed): with a JSON content-type, a declared content
length exceeding the configured maximum yields 413; the default maximum
is 1,048,576 bytes. -/
theorem webhook_c7_size_413 :
    (∀ (cfg : Config) (r : Request) (n : Nat), contentTypeOk r = true →
        r.contentLength = some n → n > cfg.maxContentLength →
        bitgo_webhook cfg r = .response 413 [("error", .pystr "Payload too large")]) ∧
      defaultMaxContentLength = 1048576 := by
  refine ⟨?_, rfl⟩
  intro cfg r n hct hcl hn
  apply bitgo_413 cfg r hct
  unfold sizeExceeded
  rw [hcl]
  have h0 : n ≠ 0 := by omega
  simp [h0, hn]

/-- Witness for C7: declared length 1,048,577 against the default
maximum yields 413. -/
theorem webhook_c7_witness :
    bitgo_webhook ⟨defaultMaxContentLength, ""⟩
        ⟨some "application/json", some 1048577, none, none, []⟩ =
      .response 413 [("error", .pystr "Payload too large")] :=
  webhook_c7_size_413.1 ⟨defaultMaxContentLength, ""⟩
    ⟨some "application/json", some 1048577, none, none, []⟩ 1048577 (by decide) rfl (by decide)

/-- Claim C5 (amended): the signature checked is `X-Signature-SHA256`
when that header is present and non-empty, otherwise
`X-Hub-Signature-256` (defaulting to the empty string); when
verification of it returns `False`, the handler responds 401. -/
theorem webhook_c5_bad_signature_401 (cfg : Config) (r : Request)
    (hct : contentTypeOk r = true) (hsz : sizeExceeded cfg r = false)
    (hv : verify_hmac_sha256 cfg.hmacSecret r.body (requestSig r) = some false) :
    bitgo_webhook cfg r = .response 401 [("error", .pystr "Invalid signature")] :=
  bitgo_401 cfg r hct hsz hv

/-- Witness for C5: secret configured, no signature headers at all. -/
theorem webhook_c5_witness :
    bitgo_webhook ⟨1048576, "k"⟩ ⟨some "application/json", none, none, none, []⟩ =
      .response 401 [("error", .pystr "Invalid signature")] :=
  webhook_c5_bad_signature_401 ⟨1048576, "k"⟩ ⟨some "application/json", none, none, none, []⟩
    (by decide) rfl rfl

set_option maxRecDepth 100000 in
/-- Counterexample to C5 as stated: `X-Signature-SHA256` is present but
empty — per the claim the empty signature is "taken" and must fail with
401 — yet the Python `or` on line 63 falls back to the correct
`X-Hub-Signature-256` value and the request succeeds with 200. -/
theorem webhook_c5_counterexample :
    bitgo_webhook ⟨1048576, "k"⟩
        ⟨some "application/json", none, some "",
          some (hexOfBytes (hmac_sha256 (utf8Encode "k") (utf8Encode "\x7b\x7d"))),
          utf8Encode "\x7b\x7d"⟩ =
      .response 200 [("status", .pystr "OK")] ∧
    verify_hmac_sha256 "k" (utf8Encode "\x7b\x7d") "" = some false :=
  ⟨rfl, rfl⟩

/-- Claim C2 (amended): after the content-type, size and signature
checks pass — (a) a body that is not valid UTF-8 raises an uncaught
decode error (no 400 is produced by the handler); (b) a non-empty UTF-8
body that is not valid JSON yields 400; (c) a non-empty UTF-8 body
parsing to a non-object JSON value yields 400; (d) an empty body is
substituted by `"\x7b\x7d"` on line 70 and yields 200. -/
theorem webhook_c2_parse_behaviour (cfg : Config) (r : Request)
    (hct : contentTypeOk r = true) (hsz : sizeExceeded cfg r = false)
    (hv : verify_hmac_sha256 cfg.hmacSecret r.body (requestSig r) = some true) :
    (utf8Decode r.body = none → bitgo_webhook cfg r = .uncaughtError) ∧
      (∀ s : String, utf8Decode r.body = some s → s ≠ "" → json_loads s = none →
        bitgo_webhook cfg r = .response 400 [("error", .pystr "Invalid JSON format")]) ∧
      (∀ (s : String) (v : PyValue), utf8Decode r.body = some s → s ≠ "" →
        json_loads s = some v → isDict v = false →
        bitgo_webhook cfg r = .response 400 [("error", .pystr "JSON object required")]) ∧
      (utf8Decode r.body = some "" →
        bitgo_webhook cfg r = .response 200 [("status", .pystr "OK")]) :=
  ⟨fun hd => bitgo_decode_uncaught cfg r hct hsz hv hd,
    fun s hd hs hp => bitgo_parse_400 cfg r hct hsz hv s hd hs hp,
    fun s v hd hs hp hnd => bitgo_nonobject_400 cfg r hct hsz hv s v hd hs hp hnd,
    fun hb => bitgo_empty_200 cfg r hct hsz hv hb⟩

/-- Witness for C2: the malformed body `"x"` yields 400. -/
theorem webhook_c2_witness :
    bitgo_webhook ⟨1048576, ""⟩ ⟨some "application/json", none, none, none, utf8Encode "x"⟩ =
      .response 400 [("error", .pystr "Invalid JSON format")] :=
  (webhook_c2_parse_behaviour ⟨1048576, ""⟩
      ⟨some "application/json", none, none, none, utf8Encode "x"⟩
      (by decide) rfl rfl).2.1 "x" rfl (by decide) rfl

/-- Counterexample to C2 as stated: the empty body is not valid JSON,
yet the handler responds 200 (line 70 substitutes `"\x7b\x7d"` for the
empty decoded body) instead of the claimed 400. -/
theorem webhook_c2_counterexample :
    json_loads "" = none ∧
      bitgo_webhook ⟨1048576, ""⟩ ⟨some "application/json", none, none, none, []⟩ =
        .response 200 [("status", .pystr "OK")] :=
  ⟨rfl, rfl⟩

/-- Claim C3 (code bug): the body is a valid JSON object that reaches
the transfer/confirmed branch with a truthy non-dict `"value"`; on
line 86 `value.get("amount")` then raises `AttributeError`, so the
handler does not return the claimed 200 acknowledgment. -/
theorem webhook_c3_transfer_crash :
    json_loads "\x7b\"type\":\"transfer\",\"state\":\"confirmed\",\"value\":[1]\x7d" =
      some (.pydict [("type", .pystr "transfer"), ("state", .pystr "confirmed"),
        ("value", .pylist [.pynum "1"])]) ∧
      bitgo_webhook ⟨1048576, ""⟩
          ⟨some "application/json", none, none, none,
            utf8Encode "\x7b\"type\":\"transfer\",\"state\":\"confirmed\",\"value\":[1]\x7d"⟩ =
        .uncaughtError :=
  ⟨rfl, rfl⟩

/-- Claim C8 (confirmed): the checks run in the fixed order
content-type, size, signature, JSON parse: a failed content-type check
answers 415 whatever the later checks would say, an oversized declared
length answers 413 whatever the signature is, a failed signature
answers 401 whatever the body parses to, and only then is malformed
JSON answered with 400. -/
theorem webhook_c8_check_order (cfg : Config) (r : Request) :
    (contentTypeOk r = false →
        bitgo_webhook cfg r =
          .response 415 [("error", .pystr "Unsupported media type; send application/json")]) ∧
      (contentTypeOk r = true → sizeExceeded cfg r = true →
        bitgo_webhook cfg r = .response 413 [("error", .pystr "Payload too large")]) ∧
      (contentTypeOk r = true → sizeExceeded cfg r = false →
        verify_hmac_sha256 cfg.hmacSecret r.body (requestSig r) = some false →
        bitgo_webhook cfg r = .response 401 [("error", .pystr "Invalid signature")]) ∧
      (contentTypeOk r = true → sizeExceeded cfg r = false →
        verify_hmac_sha256 cfg.hmacSecret r.body (requestSig r) = some true →
        ∀ s : String, utf8Decode r.body = some s → s ≠ "" → json_loads s = none →
        bitgo_webhook cfg r = .response 400 [("error", .pystr "Invalid JSON format")]) :=
  ⟨bitgo_415 cfg r, bitgo_413 cfg r, bitgo_401 cfg r,
    fun hct hsz hv s hd hs hp => bitgo_parse_400 cfg r hct hsz hv s hd hs hp⟩

/-- Witness for C8: a request failing the content-type check while also
carrying an unverifiable signature receives 415, not 401. -/
theorem webhook_c8_witness :
    bitgo_webhook ⟨1048576, "k"⟩ ⟨some "text/plain", none, none, none, []⟩ =
      .response 415 [("error", .pystr "Unsupported media type; send application/json")] :=
  (webhook_c8_check_order ⟨1048576, "k"⟩ ⟨some "text/plain", none, none, none, []⟩).1 (by decide)
